import Mathlib

/-!
Verification of the panelreader.koplugin manga-processing pipeline.

This file shallowly embeds the two pipeline scripts of the repository,
`src/Magi/process_manga.py` (MAGI backend) and `src/process_manga.py`
(Kumiko backend), and proves or refutes the frozen specification claims
about them.  Python floats are idealised as exact rationals (ℚ); Python's
banker's rounding of `round(x, 3)` is idealised as round-half-up, which
agrees with it away from exact .0005 ties.  File systems are modelled as
explicit lists of names / directory trees, and external-process behaviour
(detection calls, archive tools) as explicit outcome types whose
constructors correspond one-to-one to the `try/except` arms of the code.
-/

/- ===== string utilities =====

Python string operations used by the scripts, modelled on `String.data`
(the underlying character list) so that every operation reduces
structurally. -/

/-- `pat` is a suffix of `s` (models Python `str.endswith` and a glob
pattern of shape `*{ext}`). -/
def strEndsWith (s pat : String) : Bool := pat.data.isSuffixOf s.data

/-- Models Python `str.lower()` (ASCII case, which covers all extension
literals used by the scripts). -/
def strToLower (s : String) : String := ⟨s.data.map Char.toLower⟩

/-- Models Python `str.upper()` (ASCII case). -/
def strToUpper (s : String) : String := ⟨s.data.map Char.toUpper⟩

/-- Lexicographic comparison of character lists by code point; this is how
Python compares the strings the scripts sort. -/
def charListLe : List Char → List Char → Bool
  | [], _ => true
  | _ :: _, [] => false
  | a :: as, b :: bs => if a < b then true else if b < a then false else charListLe as bs

/-- Ascending string order by code points (Python `<=` on `str`). -/
def nameLe (a b : String) : Bool := charListLe a.data b.data

/-- One insertion step of a stable insertion sort with respect to a boolean
order `le`. -/
def insertLe {α : Type} (le : α → α → Bool) (a : α) : List α → List α
  | [] => [a]
  | b :: bs => if le a b then a :: b :: bs else b :: insertLe le a bs

/-- Stable ascending sort with respect to `le`; models Python's stable
`list.sort()` / `sorted()` extensionally. -/
def sortLe {α : Type} (le : α → α → Bool) : List α → List α
  | [] => []
  | a :: as => insertLe le a (sortLe le as)

/- ===== coordinate model ===== -/

/-- Python `round(q, 3)` idealised over ℚ: scale by 1000, round to the
nearest integer, and scale back. -/
def round3 (q : ℚ) : ℚ := (⌊q * 1000 + 1 / 2⌋ : ℚ) / 1000

/-- `max(0, min(1, q))`, the clamping used by `add_normalized_panel_to_page`
(src/process_manga.py lines 974-978). -/
def clamp01 (q : ℚ) : ℚ := max 0 (min 1 q)

/-- A raw detector box `[x1, y1, x2, y2]` in absolute pixels of the
resolution the detector actually used (`src/Magi/magi.py` writes these as
integers to `panels.json`). -/
structure RawBox where
  x1 : ℤ
  y1 : ℤ
  x2 : ℤ
  y2 : ℤ
deriving DecidableEq

/-- A stored normalized panel `{x, y, w, h}`. -/
structure Panel where
  x : ℚ
  y : ℚ
  w : ℚ
  h : ℚ
deriving DecidableEq

/-- The detector's fixed downscale threshold: `magi_max_size = 800` in
`combine_jsons_to_final_json` (src/Magi/process_manga.py line 381),
matching `max_dim = 800` in `src/Magi/magi.py` line 46. -/
def magi_max_size : ℕ := 800

/-- The per-panel normalization of `combine_jsons_to_final_json`
(src/Magi/process_manga.py lines 379-416): when
`max(actual_img_width, actual_img_height) > magi_max_size` the code sets
`scale_factor = magi_max_size / max(...)` and uses
`int(actual_img_width * scale_factor)` × `int(actual_img_height * scale_factor)`
as the normalization denominators, otherwise the original dimensions; it
then divides, rounds each coordinate to 3 decimals, and stores the result
WITHOUT clamping.  Python `int()` on these non-negative values is
`Int.toNat ∘ Int.floor`. -/
def normalizePanelMagi (actualW actualH : ℕ) (b : RawBox) : Panel :=
  let m : ℕ := max actualW actualH
  let scale_factor : ℚ := (magi_max_size : ℚ) / (m : ℚ)
  let coordW : ℕ := if magi_max_size < m then (⌊(actualW : ℚ) * scale_factor⌋).toNat else actualW
  let coordH : ℕ := if magi_max_size < m then (⌊(actualH : ℚ) * scale_factor⌋).toNat else actualH
  { x := round3 ((b.x1 : ℚ) / (coordW : ℚ))
    y := round3 ((b.y1 : ℚ) / (coordH : ℚ))
    w := round3 (((b.x2 - b.x1 : ℤ) : ℚ) / (coordW : ℚ))
    h := round3 (((b.y2 - b.y1 : ℤ) : ℚ) / (coordH : ℚ)) }

/-- Normalization of a raw box against explicitly given denominators
`coordW` × `coordH` — this follows the SPEC's wording ("this, not the true
resolution, is the normalization denominator") and is used to state the
refinement claim C1 against `normalizePanelMagi`. -/
def normalizeDirect (coordW coordH : ℕ) (b : RawBox) : Panel :=
  { x := round3 ((b.x1 : ℚ) / (coordW : ℚ))
    y := round3 ((b.y1 : ℚ) / (coordH : ℚ))
    w := round3 (((b.x2 - b.x1 : ℤ) : ℚ) / (coordW : ℚ))
    h := round3 (((b.y2 - b.y1 : ℤ) : ℚ) / (coordH : ℚ)) }

/-- `add_normalized_panel_to_page` (src/process_manga.py lines 966-989):
divide by the image dimensions, clamp each coordinate to [0,1], round to
3 decimals. -/
def add_normalized_panel_to_page (x y w h img_w img_h : ℚ) : Panel :=
  { x := round3 (clamp01 (x / img_w))
    y := round3 (clamp01 (y / img_h))
    w := round3 (clamp01 (w / img_w))
    h := round3 (clamp01 (h / img_h)) }

/- ===== MAGI pipeline: per-image processing and aggregation ===== -/

/-- The data a successful per-image detection contributes: the name of the
moved per-image JSON file, the original image dimensions the combiner reads
back with PIL, and the raw boxes from the detector. -/
structure PageInput where
  name : String
  origW : ℕ
  origH : ℕ
  boxes : List RawBox
deriving DecidableEq

/-- Observable behaviour of one `subprocess.run` detection call inside
`process_image_with_magi` (src/Magi/process_manga.py lines 195-232):
the call either completed with a return code (and did or did not create
`panels.json`), hit the 120 s timeout (`subprocess.TimeoutExpired`), or
raised some other exception. -/
inductive MagiCall where
  | completed (returncode : ℤ) (outputCreated : Bool) (result : PageInput)
  | timedOut
  | raised
deriving DecidableEq

/-- `process_image_with_magi` as a total function on call behaviours: a
zero return code with `panels.json` present yields the per-image JSON;
a non-zero code, a missing output file, a timeout or any exception is
caught inside the function and reported as failure `none` — the
`except` arms at lines 225-230 return `(False, None)`. -/
def process_image_with_magi : MagiCall → Option PageInput
  | .completed rc created out => if rc = 0 ∧ created = true then some out else none
  | .timedOut => none
  | .raised => none

/-- The per-unit loop of `process_with_magi` (src/Magi/process_manga.py
lines 600-606): every image is attempted in order and the JSON files of
the successful ones are collected; failures are skipped. -/
def unit_json_files (calls : List MagiCall) : List PageInput :=
  calls.filterMap process_image_with_magi

/-- One page record of the output document. -/
structure Page where
  page : ℕ
  image : String
  panels : List Panel
deriving DecidableEq

/-- A chapter document as written to disk. -/
structure ChapterDoc where
  reading_direction : String
  total_pages : ℕ
  pages : List Page
deriving DecidableEq

/-- `for page_num, json_file in enumerate(existing_json_files, 1)`
(src/Magi/process_manga.py line 336): pages are numbered positionally
starting from 1, each carrying its normalized panels. -/
def numberPages : ℕ → List PageInput → List Page
  | _, [] => []
  | n, f :: fs =>
      ⟨n, f.name, f.boxes.map (normalizePanelMagi f.origW f.origH)⟩ :: numberPages (n + 1) fs

/-- `existing_json_files.sort(key=lambda x: x.name)`
(src/Magi/process_manga.py line 334). -/
def sort_json_files (files : List PageInput) : List PageInput :=
  sortLe (fun a b => nameLe a.name b.name) files

/-- `combine_jsons_to_final_json` (src/Magi/process_manga.py lines
311-508) restricted to its data flow: with no existing per-image JSON
files it fails (line 329-331); otherwise it sorts the files by name,
numbers the pages 1..N in that order (a file that cannot be parsed still
contributes an empty-panel page, lines 451-481), and emits the document
`{reading_direction: "rtl", total_pages: len(pages), pages}`. -/
def combine_jsons_to_final_json (json_files : List PageInput) : Option ChapterDoc :=
  if json_files.isEmpty then none
  else
    let pages := numberPages 1 (sort_json_files json_files)
    some { reading_direction := "rtl", total_pages := pages.length, pages := pages }

/-- The page list of an aggregation result (empty when aggregation
failed). -/
def pages_of : Option ChapterDoc → List Page
  | none => []
  | some d => d.pages

/-- The page numbers of an aggregation result. -/
def page_numbers (r : Option ChapterDoc) : List ℕ :=
  (pages_of r).map (fun p => p.page)

/-- A unit of five images whose third detection call times out; the other
four succeed (used for the partial-failure scenario of the spec). -/
def five_image_unit : List MagiCall :=
  [MagiCall.completed 0 true ⟨"01_panels.json", 600, 800, []⟩,
   MagiCall.completed 0 true ⟨"02_panels.json", 600, 800, []⟩,
   MagiCall.timedOut,
   MagiCall.completed 0 true ⟨"04_panels.json", 600, 800, []⟩,
   MagiCall.completed 0 true ⟨"05_panels.json", 600, 800, []⟩]

/- ===== Kumiko pipeline: per-file JSON aggregation ===== -/

/-- One per-image Kumiko JSON file in its single-page shape
`{..., "panels": [[x, y, w, h], ...]}` together with the optional image
size `preprocess_page_data` can use for normalization
(src/process_manga.py lines 295-312). -/
structure KumikoJson where
  name : String
  panels : List (ℚ × ℚ × ℚ × ℚ)
  size : Option (ℚ × ℚ)
deriving DecidableEq

/-- The panel conversion of `preprocess_page_data`
(src/process_manga.py lines 314-347): with known positive image
dimensions every raw row `[x, y, w, h]` is divided through; without them a
row whose values are all ≤ 1 is kept as-is and a row with a value > 1
(clearly pixels) is dropped.  No clamping and no rounding happen here. -/
def preprocess_panel_rows (dims : Option (ℚ × ℚ)) (rows : List (ℚ × ℚ × ℚ × ℚ)) : List Panel :=
  rows.filterMap (fun r =>
    match dims with
    | some (iw, ih) =>
        if 0 < iw ∧ 0 < ih then some ⟨r.1 / iw, r.2.1 / ih, r.2.2.1 / iw, r.2.2.2 / ih⟩
        else if 1 < r.1 ∨ 1 < r.2.1 ∨ 1 < r.2.2.1 ∨ 1 < r.2.2.2 then none
        else some ⟨r.1, r.2.1, r.2.2.1, r.2.2.2⟩
    | none =>
        if 1 < r.1 ∨ 1 < r.2.1 ∨ 1 < r.2.2.1 ∨ 1 < r.2.2.2 then none
        else some ⟨r.1, r.2.1, r.2.2.1, r.2.2.2⟩)

/-- The page loop of `combine_jsons_to_json` (src/process_manga.py lines
168-236): `page_num` counts EVERY file via `enumerate(sorted(...), 1)`,
but a page is appended only under the guard
`if 'panels' in data and data['panels']:` (line 223) — a file whose raw
panel list is empty contributes nothing. -/
def numberKumiko : ℕ → List KumikoJson → List Page
  | _, [] => []
  | n, f :: fs =>
      (if f.panels.isEmpty then [] else [⟨n, f.name, preprocess_panel_rows f.size f.panels⟩]) ++
        numberKumiko (n + 1) fs

/-- `combine_jsons_to_json` (src/process_manga.py lines 159-282) restricted
to its data flow: sort the per-image JSON files, keep only pages with a
non-empty raw panel list, fail when no page data remains (lines 242-244),
otherwise emit `{reading_direction: "rtl", total_pages: len(pages), pages}`. -/
def combine_jsons_to_json (json_files : List KumikoJson) : Option ChapterDoc :=
  let pages := numberKumiko 1 (sortLe (fun a b => nameLe a.name b.name) json_files)
  if pages.isEmpty then none
  else some { reading_direction := "rtl", total_pages := pages.length, pages := pages }

/- ===== structure classifier ===== -/

/-- The fixed image extension set used throughout both scripts. -/
def image_extensions : List String :=
  [".jpg", ".jpeg", ".png", ".bmp", ".gif", ".webp"]

/-- An extracted directory tree: loose file names plus immediate
subdirectories. -/
inductive Dir where
  | mk (files : List String) (subdirs : List Dir)

/-- The loose file names directly in a directory. -/
def Dir.files : Dir → List String
  | .mk fs _ => fs

/-- The immediate subdirectories of a directory. -/
def Dir.subdirs : Dir → List Dir
  | .mk _ ds => ds

/-- `item.suffix.lower() in [...]` (src/Magi/process_manga.py line 666):
the lowercased name ends with one of the image extensions. -/
def isImageFileName (n : String) : Bool :=
  image_extensions.any (fun e => strEndsWith (strToLower n) e)

/-- The per-subdirectory image check of `is_chapter_based_archive`
(src/Magi/process_manga.py lines 655-662): for some extension,
`item.glob(f"*{ext}")` or `item.glob(f"*{ext.upper()}")` is non-empty —
i.e. some file directly in the directory ends with the lowercase or the
uppercase form of the extension. -/
def dirHasImages (d : Dir) : Bool :=
  image_extensions.any (fun e =>
    d.files.any (fun n => strEndsWith n e || strEndsWith n (strToUpper e)))

/-- `is_chapter_based_archive` (src/Magi/process_manga.py lines 632-673 =
src/process_manga.py lines 1236-1277): when the folder has EXACTLY ONE
immediate subdirectory the code reassigns `folder_path = nested_dir`
unconditionally (lines 647-650); it then counts subdirectories containing
images and loose image files, and classifies chapter-based iff
`chapter_dirs >= 2 or (chapter_dirs >= 1 and image_files_in_root <= 2)`. -/
def is_chapter_based_archive (d : Dir) : Bool :=
  let fp := match d.subdirs with
    | [s] => s
    | _ => d
  let chapter_dirs := (fp.subdirs.filter dirHasImages).length
  let image_files_in_root := (fp.files.filter isImageFileName).length
  decide (2 ≤ chapter_dirs) || (decide (1 ≤ chapter_dirs) && decide (image_files_in_root ≤ 2))

/-- The classifier's actual descent: into the single immediate
subdirectory whenever there is exactly one, unconditionally. -/
def descendOnce (d : Dir) : Dir :=
  match d.subdirs with
  | [s] => s
  | _ => d

/-- Count of immediate subdirectories containing at least one image. -/
def chapterDirCount (d : Dir) : ℕ := (d.subdirs.filter dirHasImages).length

/-- Count of loose image files directly in the directory. -/
def rootImageCount (d : Dir) : ℕ := (d.files.filter isImageFileName).length

/-- The classifier as the CLAIM describes it: with exactly one immediate
subdirectory, descend into it ONLY when that subdirectory itself contains
subdirectories holding images; then apply the same thresholds. -/
def is_chapter_based_claimed (d : Dir) : Bool :=
  let fp := match d.subdirs with
    | [s] => if s.subdirs.any dirHasImages then s else d
    | _ => d
  decide (2 ≤ chapterDirCount fp) ||
    (decide (1 ≤ chapterDirCount fp) && decide (rootImageCount fp ≤ 2))

/-- A folder holding nothing but a single subdirectory with three images:
the code descends into the subdirectory, the claim's rule does not. -/
def single_chapter_dir : Dir :=
  Dir.mk [] [Dir.mk [".keep", "a.jpg", "b.jpg", "c.jpg"] []]

/-- Spec §8 example: three subdirectories each holding an image, no loose
root images. -/
def three_chapter_dir : Dir :=
  Dir.mk [] [Dir.mk ["a.jpg"] [], Dir.mk ["b.jpg"] [], Dir.mk ["c.jpg"] []]

/-- Spec §8 example: one subdirectory holding images plus five loose root
images. -/
def one_sub_five_root_dir : Dir :=
  Dir.mk ["r1.jpg", "r2.jpg", "r3.jpg", "r4.jpg", "r5.jpg"] [Dir.mk ["a.jpg"] []]

/- ===== image enumerator ===== -/

/-- The glob patterns issued by the enumeration loop of `process_with_magi`
(src/Magi/process_manga.py lines 570-576) and `process_with_kumiko`
(src/process_manga.py lines 1174-1180), in issue order: for each extension
first the lowercase then the uppercase pattern. -/
def glob_patterns : List String :=
  image_extensions.flatMap (fun e => [e, strToUpper e])

/-- Whether `rglob(f"*{pat}")` matches file `n`: exact suffix match on a
case-sensitive file system, case-folded suffix match on a case-insensitive
one. -/
def rglobMatch (caseInsensitiveFS : Bool) (n pat : String) : Bool :=
  if caseInsensitiveFS then strEndsWith (strToLower n) (strToLower pat)
  else strEndsWith n pat

/-- The image enumeration: `image_files.extend(...rglob(f"*{ext}"));
image_files.extend(...rglob(f"*{ext.upper()}"))` for each extension, then
`image_files.sort()`.  The code performs NO deduplication of the collected
list. -/
def collect_image_files (caseInsensitiveFS : Bool) (files : List String) : List String :=
  sortLe nameLe (glob_patterns.flatMap (fun p => files.filter (fun n => rglobMatch caseInsensitiveFS n p)))

/- ===== archive type detection and extraction dispatch ===== -/

/-- A format reported by content inspection (`detect_file_type`,
src/Magi/process_manga.py lines 42-65): the `file` command output is
mapped to one of these, or `none` when detection is unavailable or
inconclusive. -/
inductive ArchiveKind where
  | zip
  | rar
  | sevenZ
  | tar
  | gzip
deriving DecidableEq

/-- The extraction strategy ultimately invoked by `extract_archive`. -/
inductive Strategy where
  | zipStrategy
  | gzipStrategy
  | rarStrategy
  | sevenZStrategy
  | tarStrategy
deriving DecidableEq

/-- The tar-family suffix list of the tar branch
(src/Magi/process_manga.py line 160).  `suffix` is `Path.suffix.lower()`,
the last dot-extension of the path. -/
def tar_suffixes : List String :=
  [".tar", ".tar.gz", ".tgz", ".tar.bz2", ".tbz2", ".tar.xz", ".txz"]

/-- The dispatch logic of `extract_archive` (src/Magi/process_manga.py
lines 67-175 = src/process_manga.py lines 411-519).  First
`archive_type` is resolved: the detected type when available, else an
extension fallback covering only `.cbz/.zip`, `.rar` and `.gz/.gzip`
(lines 80-90).  Then the branch chain runs: `archive_type == 'zip'`,
`archive_type == 'gzip'`, and afterwards `suffix in ['.rar']`,
`suffix in ['.7z']`, `suffix in [tar suffixes]` — the rar/7z/tar branches
test the SUFFIX, not the detected type.  `none` means the function prints
"Unsupported" and returns False without extracting. -/
def extract_archive_dispatch (detected : Option ArchiveKind) (suffix : String) : Option Strategy :=
  let archive_type : Option ArchiveKind :=
    match detected with
    | some t => some t
    | none =>
        if suffix ∈ ([".cbz", ".zip"] : List String) then some .zip
        else if suffix ∈ ([".rar"] : List String) then some .rar
        else if suffix ∈ ([".gz", ".gzip"] : List String) then some .gzip
        else none
  match archive_type with
  | none => none
  | some ty =>
      if ty = .zip then some .zipStrategy
      else if ty = .gzip then some .gzipStrategy
      else if suffix ∈ ([".rar"] : List String) then some .rarStrategy
      else if suffix ∈ ([".7z"] : List String) then some .sevenZStrategy
      else if suffix ∈ tar_suffixes then some .tarStrategy
      else none

/- ===== external tool invocation in the extraction branches ===== -/

/-- Behaviour of one external tool invocation: the binary is absent
(`FileNotFoundError` from `subprocess.run`), it ran and reported an error
(`CalledProcessError` from `check=True`), or it ran successfully. -/
inductive ToolRun where
  | toolMissing
  | ranWithError
  | ranOk
deriving DecidableEq

/-- The observable outcome of an extraction branch: success, a failure
message for a tool error, a tool-unavailable message naming the package to
install, or an exception escaping `extract_archive` entirely. -/
inductive ExtractOutcome where
  | extracted
  | extractionFailed
  | toolUnavailable (package : String)
  | uncaughtError
deriving DecidableEq

/-- The RAR branch (src/Magi/process_manga.py lines 126-141): catches
`CalledProcessError` (returns False with an error message) and
`FileNotFoundError` (returns False with "Please install unrar"). -/
def extract_rar_branch : ToolRun → ExtractOutcome
  | .ranOk => .extracted
  | .ranWithError => .extractionFailed
  | .toolMissing => .toolUnavailable ("unrar")

/-- The 7Z branch (src/Magi/process_manga.py lines 143-158): catches
`CalledProcessError` and `FileNotFoundError` (returns False with
"Please install p7zip"). -/
def extract_7z_branch : ToolRun → ExtractOutcome
  | .ranOk => .extracted
  | .ranWithError => .extractionFailed
  | .toolMissing => .toolUnavailable ("p7zip-full")

/-- The TAR branch (src/Magi/process_manga.py lines 160-170): catches ONLY
`CalledProcessError`; there is no `FileNotFoundError` handler, so a missing
`tar` binary raises out of `extract_archive`. -/
def extract_tar_branch : ToolRun → ExtractOutcome
  | .ranOk => .extracted
  | .ranWithError => .extractionFailed
  | .toolMissing => .uncaughtError

/- ===== archive index ===== -/

/-- The outcome of processing one chapter directory: `written` holds the
chapter document iff `combine_jsons_to_final_json` succeeded, i.e. iff the
chapter's JSON file was written this run. -/
structure ChapterOutcome where
  name : String
  written : Option ChapterDoc
deriving DecidableEq

/-- One entry of the master index. -/
structure IndexEntry where
  name : String
  json_file : String
  total_pages : ℕ
deriving DecidableEq

/-- The master index document. -/
structure ArchiveIndexDoc where
  archive_name : String
  total_chapters : ℕ
  chapters : List IndexEntry
  reading_direction : String
deriving DecidableEq

/-- The index-entry loop of `process_chapter_based_archive`
(src/Magi/process_manga.py lines 794-807): for each chapter directory in
order, if its chapter JSON exists (⟺ it was written this run, on a clean
run) the persisted `total_pages` is re-read from the file and an entry
`{name, json_file, total_pages}` is appended. -/
def index_entries (folder_name : String) (outs : List ChapterOutcome) : List IndexEntry :=
  outs.filterMap (fun c =>
    c.written.map (fun doc =>
      ⟨c.name, folder_name ++ "_" ++ c.name ++ ".json", doc.total_pages⟩))

/-- The master index built by `process_chapter_based_archive`
(src/Magi/process_manga.py lines 786-813): `total_chapters` is
`successful_chapters`, the number of chapters whose combine step
succeeded this run, and `chapters` is the entry list re-read from the
persisted chapter documents. -/
def build_master_index (folder_name : String) (outs : List ChapterOutcome) : ArchiveIndexDoc :=
  { archive_name := folder_name
    total_chapters := (outs.filter (fun c => c.written.isSome)).length
    chapters := index_entries folder_name outs
    reading_direction := "rtl" }

/-- Example chapter documents and outcomes for the spec's end-to-end
scenario with a failed middle chapter. -/
def exDoc1 : ChapterDoc :=
  { reading_direction := "rtl", total_pages := 2
    pages := [⟨1, "01.jpg", []⟩, ⟨2, "02.jpg", []⟩] }

/-- A one-page chapter document. -/
def exDoc3 : ChapterDoc :=
  { reading_direction := "rtl", total_pages := 1, pages := [⟨1, "01.jpg", []⟩] }

/-- Three attempted chapters: ch1 and ch3 produced documents, ch2 failed
entirely (its document was never written). -/
def exOuts : List ChapterOutcome :=
  [⟨"ch1", some exDoc1⟩, ⟨"ch2", none⟩, ⟨"ch3", some exDoc3⟩]

/- ===== document writing ===== -/

/-- The content of the output path. -/
inductive FileContent where
  | absent
  | content (s : String)
deriving DecidableEq

/-- Behaviour of one write attempt: serialization and writing complete, or
an error is raised after `k` chunks were flushed. -/
inductive WriteBehavior where
  | completes
  | failsAfter (k : ℕ)
deriving DecidableEq

/-- The document write of `combine_jsons_to_final_json`
(src/Magi/process_manga.py lines 499-508), `combine_jsons_to_json`
(src/process_manga.py lines 275-282) and the index write (lines 811-818):
`open(output_json, 'w')` TRUNCATES the file at the output path
immediately, then `json.dump` streams the serialized document into it;
the surrounding `except` returns False.  The result is the final file
content at the path and the function's boolean return. -/
def write_json_output (prior : FileContent) (chunks : List String) :
    WriteBehavior → FileContent × Bool
  | .completes => (.content (String.join chunks), true)
  | .failsAfter k => (.content (String.join (chunks.take k)), false)

/- ===== helper lemmas ===== -/

/-- Flooring `a * (magi_max_size / m)` over ℚ and truncating to ℕ is the
natural-number division `a * magi_max_size / m`. -/
theorem toNat_floor_scale (a m : ℕ) :
    (⌊(a : ℚ) * ((magi_max_size : ℚ) / (m : ℚ))⌋).toNat = a * magi_max_size / m := by
  rw [mul_div_assoc']
  rw [show ((a : ℚ) * (magi_max_size : ℚ)) = ((a * magi_max_size : ℕ) : ℚ) by push_cast; ring]
  rw [Int.floor_toNat, Nat.floor_div_nat, Nat.floor_natCast]

/-- Inserting one element grows the length by one. -/
theorem length_insertLe {α : Type} (le : α → α → Bool) (a : α) (l : List α) :
    (insertLe le a l).length = l.length + 1 := by
  induction l with
  | nil => rfl
  | cons b bs ih =>
      simp only [insertLe]
      split
      · rfl
      · simp [ih]

/-- Sorting preserves the length. -/
theorem length_sortLe {α : Type} (le : α → α → Bool) (l : List α) :
    (sortLe le l).length = l.length := by
  induction l with
  | nil => rfl
  | cons a as ih => simp [sortLe, length_insertLe, ih]

/-- The page numbers produced by `numberPages` starting at `n` are exactly
`n, n+1, ...` — one per surviving file. -/
theorem map_page_numberPages (l : List PageInput) (n : ℕ) :
    (numberPages n l).map (fun p => p.page) = List.range' n l.length := by
  induction l generalizing n with
  | nil => rfl
  | cons f fs ih =>
      simp only [numberPages, List.map_cons, List.length_cons, List.range'_succ]
      exact congrArg (n :: ·) (ih (n + 1))

/-- Each surviving file contributes exactly its own image name and its own
normalized panels, positionally. -/
theorem map_pair_numberPages (l : List PageInput) (n : ℕ) :
    (numberPages n l).map (fun p => (p.image, p.panels)) =
      l.map (fun f => (f.name, f.boxes.map (normalizePanelMagi f.origW f.origH))) := by
  induction l generalizing n with
  | nil => rfl
  | cons f fs ih =>
      simp only [numberPages, List.map_cons]
      exact congrArg ((f.name, f.boxes.map (normalizePanelMagi f.origW f.origH)) :: ·) (ih (n + 1))

/-- `clamp01` produces a value ≥ 0. -/
theorem clamp01_nonneg (q : ℚ) : 0 ≤ clamp01 q := le_max_left 0 _

/-- `clamp01` produces a value ≤ 1. -/
theorem clamp01_le_one (q : ℚ) : clamp01 q ≤ 1 :=
  max_le (by norm_num) (min_le_left 1 q)

/-- `clamp01` is the identity on [0, 1]. -/
theorem clamp01_eq_self (q : ℚ) (h0 : 0 ≤ q) (h1 : q ≤ 1) : clamp01 q = q := by
  unfold clamp01
  rw [min_eq_right h1, max_eq_right h0]

/-- Rounding a non-negative value to 3 decimals stays non-negative. -/
theorem round3_nonneg (q : ℚ) (h : 0 ≤ q) : 0 ≤ round3 q := by
  unfold round3
  apply div_nonneg _ (by norm_num)
  have hq : (0 : ℚ) ≤ q * 1000 + 1 / 2 := by nlinarith
  have : (0 : ℤ) ≤ ⌊q * 1000 + 1 / 2⌋ := Int.le_floor.mpr (by exact_mod_cast hq)
  exact_mod_cast this

/-- Rounding a value ≤ 1 to 3 decimals stays ≤ 1. -/
theorem round3_le_one (q : ℚ) (h : q ≤ 1) : round3 q ≤ 1 := by
  unfold round3
  rw [div_le_one (by norm_num : (0 : ℚ) < 1000)]
  have h2 : ⌊q * 1000 + 1 / 2⌋ ≤ ⌊(1000 : ℚ) + 1 / 2⌋ := Int.floor_le_floor (by nlinarith)
  have h3 : ⌊(1000 : ℚ) + 1 / 2⌋ = 1000 := by norm_num
  rw [h3] at h2
  exact_mod_cast h2

/-- Rounding to 3 decimals adds at most half a thousandth. -/
theorem round3_le_add (q : ℚ) : round3 q ≤ q + 1 / 2000 := by
  unfold round3
  rw [div_le_iff₀ (by norm_num : (0 : ℚ) < 1000)]
  have h1 : (⌊q * 1000 + 1 / 2⌋ : ℚ) ≤ q * 1000 + 1 / 2 := Int.floor_le _
  nlinarith

/-- `List.all` is preserved by one insertion. -/
theorem all_insertLe {α : Type} (le : α → α → Bool) (p : α → Bool) (a : α) (l : List α) :
    (insertLe le a l).all p = (p a && l.all p) := by
  induction l with
  | nil => rfl
  | cons b bs ih =>
      simp only [insertLe]
      split
      · rfl
      · simp [ih, Bool.and_left_comm]

/-- `List.all` is invariant under sorting. -/
theorem all_sortLe {α : Type} (le : α → α → Bool) (p : α → Bool) (l : List α) :
    (sortLe le l).all p = l.all p := by
  induction l with
  | nil => rfl
  | cons a as ih => simp [sortLe, all_insertLe, ih]

/-- `numberKumiko` produces no page at all iff every file has an empty raw
panel list. -/
theorem numberKumiko_nil_iff (l : List KumikoJson) (n : ℕ) :
    numberKumiko n l = [] ↔ l.all (fun f => f.panels.isEmpty) = true := by
  induction l generalizing n with
  | nil => simp [numberKumiko]
  | cons f fs ih =>
      by_cases hp : f.panels.isEmpty
      · simp [numberKumiko, hp, ih (n + 1)]
      · simp [numberKumiko, hp]

/-- The names of the index entries are the names of the chapters whose
document was written, in order. -/
theorem index_entries_names (folder_name : String) (outs : List ChapterOutcome) :
    (index_entries folder_name outs).map (fun e => e.name) =
      (outs.filter (fun c => c.written.isSome)).map (fun c => c.name) := by
  induction outs with
  | nil => rfl
  | cons c rest ih =>
      rcases hw : c.written with _ | doc <;>
        simp [index_entries, List.filterMap_cons, List.filter_cons, hw] <;>
        simpa [index_entries] using ih

/- ===== claim theorems ===== -/

/-- C1: for every processed image, when `max(origW, origH) > 800` the
normalization denominator of `combine_jsons_to_final_json` is the effective
inference resolution `(⌊origW·800/max⌋, ⌊origH·800/max⌋)`, not the original
resolution; when `max(origW, origH) ≤ 800` the original resolution is the
denominator; and on a 1600×2400 original the raw box [100,100,300,500]
normalizes to x = 0.188, y = 0.125, w = 0.375, h = 0.5. -/
theorem magi_normalization_uses_effective_resolution :
    (∀ (W H : ℕ) (b : RawBox), magi_max_size < max W H →
        normalizePanelMagi W H b =
          normalizeDirect (W * magi_max_size / max W H) (H * magi_max_size / max W H) b) ∧
    (∀ (W H : ℕ) (b : RawBox), max W H ≤ magi_max_size →
        normalizePanelMagi W H b = normalizeDirect W H b) ∧
    normalizePanelMagi 1600 2400 ⟨100, 100, 300, 500⟩ =
      { x := 188 / 1000, y := 125 / 1000, w := 375 / 1000, h := 500 / 1000 } := by
  refine ⟨?_, ?_, ?_⟩
  · intro W H b hlt
    simp only [normalizePanelMagi, normalizeDirect, if_pos hlt, toNat_floor_scale]
  · intro W H b hle
    simp only [normalizePanelMagi, normalizeDirect, if_neg (not_lt.mpr hle)]
  · simp only [normalizePanelMagi, round3, magi_max_size]
    norm_num
    simp
    norm_num

/-- C1 witness: the general statement applied to the 1600×2400 example
with its hypothesis discharged concretely. -/
theorem magi_normalization_uses_effective_resolution_witness :
    magi_max_size < max 1600 2400 ∧
    normalizePanelMagi 1600 2400 ⟨100, 100, 300, 500⟩ =
      normalizeDirect (1600 * magi_max_size / max 1600 2400)
        (2400 * magi_max_size / max 1600 2400) ⟨100, 100, 300, 500⟩ :=
  ⟨by decide,
   magi_normalization_uses_effective_resolution.1 1600 2400 ⟨100, 100, 300, 500⟩ (by decide)⟩

/-- C2 counterexample: the claim states every panel of a written
ChapterDocument has all four coordinates clamped to [0,1]; but
`combine_jsons_to_final_json` applies no clamping, and the written document
for a 1600×2400 image with raw box [500,100,1100,500] stores the panel
width 1.126 > 1. -/
theorem panel_clamp_invariant_counterexample :
    (combine_jsons_to_final_json [⟨"001_panels.json", 1600, 2400, [⟨500, 100, 1100, 500⟩]⟩]).map
        (fun d => d.pages.map (fun p => p.panels.map (fun pn => pn.w))) =
      some [[1126 / 1000]] ∧
    ¬ ((1126 : ℚ) / 1000 ≤ 1) := by
  constructor
  · simp only [combine_jsons_to_final_json, sort_json_files, sortLe, insertLe, numberPages,
      List.isEmpty_cons, Option.map_some, List.map_cons, List.map_nil]
    simp only [normalizePanelMagi, round3, magi_max_size]
    norm_num
    simp
    norm_num
  · norm_num

/-- C2 amended: `add_normalized_panel_to_page` clamps each coordinate to
[0,1] and then rounds to 3 decimals, so every panel it produces satisfies
0 ≤ x, y, w, h ≤ 1, and when the raw box is non-negative and lies within
the image also x + w ≤ 1.001 and y + h ≤ 1.001; but
`combine_jsons_to_final_json` rounds WITHOUT clamping, so the MAGI pipeline
can store coordinates above 1. -/
theorem panel_clamp_invariant_amended (x y w h W H : ℚ)
    (hW : 0 < W) (hH : 0 < H) (hx : 0 ≤ x) (hy : 0 ≤ y) (hw : 0 ≤ w) (hh : 0 ≤ h)
    (hxw : x + w ≤ W) (hyh : y + h ≤ H) :
    (0 ≤ (add_normalized_panel_to_page x y w h W H).x ∧
      (add_normalized_panel_to_page x y w h W H).x ≤ 1 ∧
      0 ≤ (add_normalized_panel_to_page x y w h W H).y ∧
      (add_normalized_panel_to_page x y w h W H).y ≤ 1 ∧
      0 ≤ (add_normalized_panel_to_page x y w h W H).w ∧
      (add_normalized_panel_to_page x y w h W H).w ≤ 1 ∧
      0 ≤ (add_normalized_panel_to_page x y w h W H).h ∧
      (add_normalized_panel_to_page x y w h W H).h ≤ 1) ∧
    (add_normalized_panel_to_page x y w h W H).x + (add_normalized_panel_to_page x y w h W H).w ≤
      1001 / 1000 ∧
    (add_normalized_panel_to_page x y w h W H).y + (add_normalized_panel_to_page x y w h W H).h ≤
      1001 / 1000 ∧
    ¬ ((normalizePanelMagi 1600 2400 ⟨500, 100, 1100, 500⟩).w ≤ 1) := by
  have hxW0 : 0 ≤ x / W := div_nonneg hx hW.le
  have hyH0 : 0 ≤ y / H := div_nonneg hy hH.le
  have hwW0 : 0 ≤ w / W := div_nonneg hw hW.le
  have hhH0 : 0 ≤ h / H := div_nonneg hh hH.le
  have hxW1 : x / W ≤ 1 := (div_le_one hW).mpr (by linarith)
  have hyH1 : y / H ≤ 1 := (div_le_one hH).mpr (by linarith)
  have hwW1 : w / W ≤ 1 := (div_le_one hW).mpr (by linarith)
  have hhH1 : h / H ≤ 1 := (div_le_one hH).mpr (by linarith)
  refine ⟨⟨?_, ?_, ?_, ?_, ?_, ?_, ?_, ?_⟩, ?_, ?_, ?_⟩
  · exact round3_nonneg _ (clamp01_nonneg _)
  · exact round3_le_one _ (clamp01_le_one _)
  · exact round3_nonneg _ (clamp01_nonneg _)
  · exact round3_le_one _ (clamp01_le_one _)
  · exact round3_nonneg _ (clamp01_nonneg _)
  · exact round3_le_one _ (clamp01_le_one _)
  · exact round3_nonneg _ (clamp01_nonneg _)
  · exact round3_le_one _ (clamp01_le_one _)
  · have e1 : (add_normalized_panel_to_page x y w h W H).x = round3 (x / W) := by
      simp [add_normalized_panel_to_page, clamp01_eq_self _ hxW0 hxW1]
    have e2 : (add_normalized_panel_to_page x y w h W H).w = round3 (w / W) := by
      simp [add_normalized_panel_to_page, clamp01_eq_self _ hwW0 hwW1]
    have hsum : x / W + w / W ≤ 1 := by
      rw [div_add_div_same]
      exact (div_le_one hW).mpr hxw
    have r1 := round3_le_add (x / W)
    have r2 := round3_le_add (w / W)
    rw [e1, e2]
    linarith
  · have e1 : (add_normalized_panel_to_page x y w h W H).y = round3 (y / H) := by
      simp [add_normalized_panel_to_page, clamp01_eq_self _ hyH0 hyH1]
    have e2 : (add_normalized_panel_to_page x y w h W H).h = round3 (h / H) := by
      simp [add_normalized_panel_to_page, clamp01_eq_self _ hhH0 hhH1]
    have hsum : y / H + h / H ≤ 1 := by
      rw [div_add_div_same]
      exact (div_le_one hH).mpr hyh
    have r1 := round3_le_add (y / H)
    have r2 := round3_le_add (h / H)
    rw [e1, e2]
    linarith
  · have hval : (normalizePanelMagi 1600 2400 ⟨500, 100, 1100, 500⟩).w = 1126 / 1000 := by
      simp only [normalizePanelMagi, round3, magi_max_size]
      norm_num
      simp
      norm_num
    rw [hval]
    norm_num

/-- C2 witness: the amended statement at the in-bounds raw box
(100, 100, 200, 400) of a 533×800 image, hypotheses discharged
concretely. -/
theorem panel_clamp_invariant_amended_witness :
    (0 : ℚ) < 533 ∧ (0 : ℚ) < 800 ∧
    ((0 ≤ (add_normalized_panel_to_page 100 100 200 400 533 800).x ∧
      (add_normalized_panel_to_page 100 100 200 400 533 800).x ≤ 1 ∧
      0 ≤ (add_normalized_panel_to_page 100 100 200 400 533 800).y ∧
      (add_normalized_panel_to_page 100 100 200 400 533 800).y ≤ 1 ∧
      0 ≤ (add_normalized_panel_to_page 100 100 200 400 533 800).w ∧
      (add_normalized_panel_to_page 100 100 200 400 533 800).w ≤ 1 ∧
      0 ≤ (add_normalized_panel_to_page 100 100 200 400 533 800).h ∧
      (add_normalized_panel_to_page 100 100 200 400 533 800).h ≤ 1) ∧
    (add_normalized_panel_to_page 100 100 200 400 533 800).x +
        (add_normalized_panel_to_page 100 100 200 400 533 800).w ≤ 1001 / 1000 ∧
    (add_normalized_panel_to_page 100 100 200 400 533 800).y +
        (add_normalized_panel_to_page 100 100 200 400 533 800).h ≤ 1001 / 1000 ∧
    ¬ ((normalizePanelMagi 1600 2400 ⟨500, 100, 1100, 500⟩).w ≤ 1)) :=
  ⟨by norm_num, by norm_num,
   panel_clamp_invariant_amended 100 100 200 400 533 800 (by norm_num) (by norm_num)
     (by norm_num) (by norm_num) (by norm_num) (by norm_num) (by norm_num) (by norm_num)⟩

/-- C3 counterexample: the claim says the classifier descends into a sole
immediate subdirectory only when that subdirectory itself contains
subdirectories holding images; on a folder whose single subdirectory holds
three images (and no subdirectories) the claim's rule classifies
chapter-based, but `is_chapter_based_archive` descends unconditionally and
classifies flat. -/
theorem classifier_descent_counterexample :
    is_chapter_based_archive single_chapter_dir = false ∧
    is_chapter_based_claimed single_chapter_dir = true := by decide

/-- C3 amended: the classifier ALWAYS descends once into a sole immediate
subdirectory, and on the (possibly descended) folder returns chapter-based
iff `chapterDirs ≥ 2 ∨ (chapterDirs ≥ 1 ∧ rootImages ≤ 2)`; the two spec
examples (three chapter subdirectories → chapter-based; one subdirectory
plus five loose root images → flat) hold. -/
theorem classifier_threshold_amended :
    (∀ d : Dir, is_chapter_based_archive d = true ↔
      (2 ≤ chapterDirCount (descendOnce d) ∨
        (1 ≤ chapterDirCount (descendOnce d) ∧ rootImageCount (descendOnce d) ≤ 2))) ∧
    is_chapter_based_archive three_chapter_dir = true ∧
    is_chapter_based_archive one_sub_five_root_dir = false := by
  refine ⟨?_, by decide, by decide⟩
  intro d
  rcases hd : d.subdirs with _ | ⟨s, rest⟩
  · simp [is_chapter_based_archive, descendOnce, chapterDirCount, rootImageCount, hd]
  · rcases rest with _ | ⟨t, ts⟩ <;>
      simp [is_chapter_based_archive, descendOnce, chapterDirCount, rootImageCount, hd]

/-- C4: a per-image detection timeout or exception is caught and
downgraded to a skip of that single image (`process_image_with_magi`
returns failure instead of propagating), the unit loop continues past it,
the surviving pages are numbered contiguously 1..N in enumeration order,
and the concrete unit of 5 images whose third call times out yields a
document with exactly 4 pages numbered 1 through 4. -/
theorem detection_failure_downgraded_to_skip :
    process_image_with_magi MagiCall.timedOut = none ∧
    process_image_with_magi MagiCall.raised = none ∧
    (∀ pre post : List MagiCall,
        unit_json_files (pre ++ MagiCall.timedOut :: post) =
          unit_json_files pre ++ unit_json_files post) ∧
    (∀ calls : List MagiCall,
        page_numbers (combine_jsons_to_final_json (unit_json_files calls)) =
          List.range' 1 (unit_json_files calls).length) ∧
    page_numbers (combine_jsons_to_final_json (unit_json_files five_image_unit)) = [1, 2, 3, 4] ∧
    (combine_jsons_to_final_json (unit_json_files five_image_unit)).map
        (fun d => d.total_pages) = some 4 := by
  refine ⟨rfl, rfl, ?_, ?_, by decide, by decide⟩
  · intro pre post
    simp [unit_json_files, List.filterMap_append, List.filterMap_cons, process_image_with_magi]
  · intro calls
    rcases hf : unit_json_files calls with _ | ⟨f, fs⟩
    · simp [combine_jsons_to_final_json, page_numbers, pages_of]
    · simp only [combine_jsons_to_final_json, List.isEmpty_cons, Bool.false_eq_true,
        if_false, page_numbers, pages_of]
      rw [map_page_numberPages]
      simp only [sort_json_files]
      rw [length_sortLe]

/-- C5 counterexample: the claim says a page whose detection succeeded
with zero panels is still included and the unit succeeds; but
`combine_jsons_to_json` drops every page with an empty raw panel list, so
a unit whose single surviving page has zero panels produces NO document at
all — while the MAGI combiner does include such a page. -/
theorem zero_panel_page_counterexample :
    combine_jsons_to_json [⟨"001", [], none⟩] = none ∧
    combine_jsons_to_final_json [⟨"001_panels.json", 800, 600, []⟩] =
      some { reading_direction := "rtl", total_pages := 1
             pages := [⟨1, "001_panels.json", []⟩] } := by decide

/-- C5 amended: in the MAGI pipeline aggregation fails iff NO per-image
JSON file exists, every surviving file contributes exactly one page (its
own name and normalized panels, zero-panel pages included, no placeholder
for failed images); in the Kumiko pipeline (`combine_jsons_to_json`)
pages with an empty raw panel list are dropped, so aggregation fails iff
every surviving file has an empty raw panel list. -/
theorem aggregation_success_amended :
    (∀ files : List PageInput, combine_jsons_to_final_json files = none ↔ files = []) ∧
    (∀ files : List PageInput,
        (pages_of (combine_jsons_to_final_json files)).map (fun p => (p.image, p.panels)) =
          (sort_json_files files).map
            (fun f => (f.name, f.boxes.map (normalizePanelMagi f.origW f.origH)))) ∧
    (∀ kfiles : List KumikoJson,
        combine_jsons_to_json kfiles = none ↔
          kfiles.all (fun f => f.panels.isEmpty) = true) := by
  refine ⟨?_, ?_, ?_⟩
  · intro files
    rcases files with _ | ⟨f, fs⟩ <;> simp [combine_jsons_to_final_json]
  · intro files
    rcases hf : files with _ | ⟨f, fs⟩
    · simp [combine_jsons_to_final_json, pages_of, sort_json_files, sortLe]
    · simp only [combine_jsons_to_final_json, List.isEmpty_cons, Bool.false_eq_true,
        if_false, pages_of]
      exact map_pair_numberPages _ 1
  · intro kfiles
    rw [show combine_jsons_to_json kfiles =
        (if (numberKumiko 1 (sortLe (fun a b => nameLe a.name b.name) kfiles)).isEmpty then none
         else some { reading_direction := "rtl"
                     total_pages :=
                       (numberKumiko 1 (sortLe (fun a b => nameLe a.name b.name) kfiles)).length
                     pages := numberKumiko 1 (sortLe (fun a b => nameLe a.name b.name) kfiles) })
        from rfl]
    by_cases hp : (numberKumiko 1 (sortLe (fun a b => nameLe a.name b.name) kfiles)).isEmpty
    · simp only [hp, if_true]
      have h2 := (numberKumiko_nil_iff (sortLe (fun a b => nameLe a.name b.name) kfiles) 1).mp
        (List.isEmpty_iff.mp hp)
      rw [all_sortLe] at h2
      simp [h2]
    · simp only [hp, Bool.false_eq_true, if_false]
      constructor
      · intro hcontr
        exact absurd hcontr (by simp)
      · intro hall
        exfalso
        apply hp
        rw [List.isEmpty_iff]
        rw [numberKumiko_nil_iff, all_sortLe]
        exact hall

/-- C6 (code-bug evaluation): the enumeration loop performs no
deduplication — on a case-insensitive file system a single file `a.jpg`
matches both the lowercase and the uppercase glob pattern and is collected
TWICE (and would be processed as two pages), while on a case-sensitive
file system it is collected once. -/
theorem image_enumeration_duplicates :
    collect_image_files true ["a.jpg"] = ["a.jpg", "a.jpg"] ∧
    collect_image_files false ["a.jpg"] = ["a.jpg"] := by decide

/-- C7 counterexample: the claim says every content-detected format is
dispatched by that format regardless of extension; but a file whose
content is detected as RAR yet carries the `.cbz` extension selects NO
strategy at all (the rar branch tests the suffix), and a file detected as
TAR with a `.rar` extension is dispatched to the RAR strategy — by
extension, not by detected format. -/
theorem content_dispatch_counterexample :
    extract_archive_dispatch (some ArchiveKind.rar) (".cbz") = none ∧
    extract_archive_dispatch (some ArchiveKind.rar) (".cbz") ≠ some Strategy.rarStrategy ∧
    extract_archive_dispatch (some ArchiveKind.tar) (".rar") = some Strategy.rarStrategy := by
  decide

/-- C7 amended: a content detection of zip or gzip dispatches that
strategy regardless of extension; a content detection of rar, 7z or tar
falls through to an extension-only dispatch (identical for all three
detected kinds): `.rar` → rar, `.7z` → 7z, a tar-family suffix → tar,
anything else → unsupported; and when detection is inconclusive the
extension fallback maps only `.cbz`/`.zip` → zip, `.rar` → rar,
`.gz`/`.gzip` → gzip, everything else → unsupported. -/
theorem content_dispatch_amended :
    (∀ s : String, extract_archive_dispatch (some ArchiveKind.zip) s = some Strategy.zipStrategy) ∧
    (∀ s : String,
        extract_archive_dispatch (some ArchiveKind.gzip) s = some Strategy.gzipStrategy) ∧
    (∀ s : String, extract_archive_dispatch (some ArchiveKind.rar) s =
        extract_archive_dispatch (some ArchiveKind.tar) s) ∧
    (∀ s : String, extract_archive_dispatch (some ArchiveKind.sevenZ) s =
        extract_archive_dispatch (some ArchiveKind.tar) s) ∧
    (∀ s : String, extract_archive_dispatch (some ArchiveKind.tar) s =
        (if s ∈ ([".rar"] : List String) then some Strategy.rarStrategy
         else if s ∈ ([".7z"] : List String) then some Strategy.sevenZStrategy
         else if s ∈ tar_suffixes then some Strategy.tarStrategy
         else none)) ∧
    (∀ s : String, extract_archive_dispatch none s =
        (if s ∈ ([".cbz", ".zip"] : List String) then some Strategy.zipStrategy
         else if s ∈ ([".rar"] : List String) then some Strategy.rarStrategy
         else if s ∈ ([".gz", ".gzip"] : List String) then some Strategy.gzipStrategy
         else none)) := by
  refine ⟨fun s => rfl, fun s => rfl, fun s => rfl, fun s => rfl, fun s => rfl, ?_⟩
  intro s
  by_cases h1 : s = ".cbz"
  · subst h1; decide
  by_cases h2 : s = ".zip"
  · subst h2; decide
  by_cases h3 : s = ".rar"
  · subst h3; decide
  by_cases h4 : s = ".gz"
  · subst h4; decide
  by_cases h5 : s = ".gzip"
  · subst h5; decide
  simp [extract_archive_dispatch, h1, h2, h3, h4, h5]

/-- C8 (code-bug evaluation): the rar and 7z branches turn a missing tool
binary into a distinct tool-unavailable failure naming the package and a
tool error into an extraction failure, both inside `extract_archive`; but
the tar branch has no `FileNotFoundError` handler, so a missing `tar`
binary raises an exception that escapes `extract_archive`. -/
theorem tar_tool_missing_uncaught :
    extract_tar_branch ToolRun.toolMissing = ExtractOutcome.uncaughtError ∧
    extract_tar_branch ToolRun.ranWithError = ExtractOutcome.extractionFailed ∧
    extract_rar_branch ToolRun.toolMissing = ExtractOutcome.toolUnavailable ("unrar") ∧
    extract_rar_branch ToolRun.ranWithError = ExtractOutcome.extractionFailed ∧
    extract_7z_branch ToolRun.toolMissing = ExtractOutcome.toolUnavailable ("p7zip-full") ∧
    extract_7z_branch ToolRun.ranWithError = ExtractOutcome.extractionFailed ∧
    ExtractOutcome.uncaughtError ≠ ExtractOutcome.extractionFailed ∧
    ExtractOutcome.uncaughtError ≠ ExtractOutcome.toolUnavailable ("tar") := by decide

/-- C9: the master index built after all chapters were attempted has
`total_chapters` equal to the number of chapters whose document was
produced this run, exactly that many entries, one entry per written
chapter carrying the chapter's persisted `total_pages` re-read from its
document, and no entry at all for a chapter whose document was never
written (chapter names being distinct). -/
theorem archive_index_contents (folder_name : String) (outs : List ChapterOutcome)
    (hnd : (outs.map (fun c => c.name)).Nodup)
    (c : ChapterOutcome) (hc : c ∈ outs) (doc : ChapterDoc) (hdoc : c.written = some doc)
    (c' : ChapterOutcome) (hc' : c' ∈ outs) (hnone : c'.written = none)
    (e : IndexEntry) (he : e ∈ (build_master_index folder_name outs).chapters) :
    (build_master_index folder_name outs).total_chapters =
      (outs.filter (fun o => o.written.isSome)).length ∧
    (build_master_index folder_name outs).chapters.length =
      (build_master_index folder_name outs).total_chapters ∧
    (⟨c.name, folder_name ++ "_" ++ c.name ++ ".json", doc.total_pages⟩ : IndexEntry) ∈
      (build_master_index folder_name outs).chapters ∧
    e.name ≠ c'.name ∧
    ((build_master_index folder_name outs).chapters.map (fun en => en.name)).Nodup := by
  have hnames := index_entries_names folder_name outs
  refine ⟨rfl, ?_, ?_, ?_, ?_⟩
  · have := congrArg List.length hnames
    simpa [build_master_index] using this
  · exact List.mem_filterMap.mpr ⟨c, hc, by rw [hdoc]; rfl⟩
  · intro heq
    have hmem : e.name ∈ (build_master_index folder_name outs).chapters.map (fun en => en.name) :=
      List.mem_map.mpr ⟨e, he, rfl⟩
    rw [show (build_master_index folder_name outs).chapters = index_entries folder_name outs
        from rfl, hnames] at hmem
    obtain ⟨a, ha, hname⟩ := List.mem_map.mp hmem
    have haouts : a ∈ outs := (List.mem_filter.mp ha).1
    have hasome : a.written.isSome = true := (List.mem_filter.mp ha).2
    have hac : a = c' := by
      apply List.inj_on_of_nodup_map hnd haouts hc'
      rw [hname, heq]
    rw [hac, hnone] at hasome
    simp at hasome
  · rw [show (build_master_index folder_name outs).chapters = index_entries folder_name outs
        from rfl, hnames]
    exact hnd.sublist ((List.filter_sublist outs).map (fun o => o.name))

/-- C9 witness: the theorem at the concrete three-chapter scenario
(ch1 written with 2 pages, ch2 never written, ch3 written with 1 page),
all hypotheses discharged concretely. -/
theorem archive_index_contents_witness :
    ((exOuts.map (fun c => c.name)).Nodup ∧
      (⟨"ch1", some exDoc1⟩ : ChapterOutcome) ∈ exOuts ∧
      (⟨"ch2", none⟩ : ChapterOutcome) ∈ exOuts ∧
      (⟨"ch1", "vol1_ch1.json", 2⟩ : IndexEntry) ∈
        (build_master_index ("vol1") exOuts).chapters) ∧
    ((build_master_index ("vol1") exOuts).total_chapters =
        (exOuts.filter (fun o => o.written.isSome)).length ∧
      (build_master_index ("vol1") exOuts).chapters.length =
        (build_master_index ("vol1") exOuts).total_chapters ∧
      (⟨"ch1", ("vol1" : String) ++ "_" ++ "ch1" ++ ".json", exDoc1.total_pages⟩ : IndexEntry) ∈
        (build_master_index ("vol1") exOuts).chapters ∧
      (⟨"ch1", "vol1_ch1.json", 2⟩ : IndexEntry).name ≠ "ch2" ∧
      ((build_master_index ("vol1") exOuts).chapters.map (fun en => en.name)).Nodup) :=
  ⟨⟨by decide, by decide, by decide, by decide⟩,
   archive_index_contents ("vol1") exOuts (by decide)
     ⟨"ch1", some exDoc1⟩ (by decide) exDoc1 (by decide)
     ⟨"ch2", none⟩ (by decide) (by decide)
     ⟨"ch1", "vol1_ch1.json", 2⟩ (by decide)⟩

/-- C10 counterexample: the claim says an error during a document write
leaves the previously existing file content untouched; but the write opens
the path in truncating mode first, so a failure after the first chunk
leaves a partial file that is neither the prior content nor the complete
document (and the function merely returns False). -/
theorem json_write_counterexample :
    (write_json_output (.content ("old")) ["ab", "cd"] (.failsAfter 1)).1 ≠
      FileContent.content ("old") ∧
    (write_json_output (.content ("old")) ["ab", "cd"] (.failsAfter 1)).1 ≠
      FileContent.content ("abcd") ∧
    (write_json_output (.content ("old")) ["ab", "cd"] (.failsAfter 1)).2 = false := by decide

/-- C10 amended: a document write truncates the output path and streams
the serialized document: on success the file holds exactly the complete
document, on a failure after `k` chunks it holds exactly the truncated
prefix (and the caught exception makes the function return False); in
particular the final content never depends on the prior content — the
write is not all-or-nothing. -/
theorem json_write_semantics_amended :
    (∀ (prior : FileContent) (chunks : List String),
        write_json_output prior chunks .completes =
          (FileContent.content (String.join chunks), true)) ∧
    (∀ (prior : FileContent) (chunks : List String) (k : ℕ),
        write_json_output prior chunks (.failsAfter k) =
          (FileContent.content (String.join (chunks.take k)), false)) ∧
    (∀ (p1 p2 : FileContent) (chunks : List String) (b : WriteBehavior),
        write_json_output p1 chunks b = write_json_output p2 chunks b) := by
  refine ⟨fun prior chunks => rfl, fun prior chunks k => rfl, ?_⟩
  intro p1 p2 chunks b
  cases b <;> rfl
